import Mathlib

/-!
Verification of the ingestion pipeline of the vercel-log-drain service.

The embedding follows `src/main.rs`, in particular the `ingest` handler
(lines 167-222).  External library behaviour (the `hex` crate, the
header-value `to_str` of the `http` crate, the UTF-8 validation of
`String::from_utf8`) is embedded directly; external effectful
collaborators (`hmac::verify` from `ring`, the text-level JSON parsing
performed by `serde_json`, the per-call outcome of the `mpsc` channel
send) are parameters of the embedded handler, since only their
success/failure outcome steers the control flow of the handler.

The `types` module of the repository (the `Message` record and the
`VercelPayload` deserializer) is not part of the available sources, so
those two pieces are modelled from the specification, as marked on their
doc comments.
-/

/-- A JSON value, the shape that `serde_json` hands to the payload decoder. -/
inductive Json where
  | null : Json
  | bool (b : Bool) : Json
  | num (n : Int) : Json
  | str (s : String) : Json
  | arr (xs : List Json) : Json
  | obj (fields : List (String × Json)) : Json

/-- Modelled from the spec: the `types::Message` record is missing from the
sources.  Spec section 3: a Record carries a source-kind discriminant, a
timestamp, a severity/level field, a free-text message, and an opaque
structured-payload map for source-kind-specific fields. -/
structure Message where
  source : String
  timestamp : Int
  level : Option String
  message : String
  payload : List (String × Json)

/-- Modelled from the spec: the platform-defined set of source-kind
discriminants (spec section 3: build, serverless-function, edge-function,
static-asset, external/proxy logs). -/
def knownSources : List String := ["build", "lambda", "edge", "static", "external"]

/-- First value bound to key `k` in the field list of a JSON object. -/
def lookupField (fields : List (String × Json)) (k : String) : Option Json :=
  match fields with
  | [] => none
  | (k1, v) :: rest => if k1 = k then some v else lookupField rest k

/-- Modelled from the spec: per-element decode of `types::VercelPayload`
(spec sections 4.2 and 9): inspect the source-kind discriminant and decode
the shape registered for it; an unrecognized discriminant or an invalid
element shape is a decode failure for that element.  Spec section 3
requires the discriminant, timestamp and message fields of every Record. -/
def decodeMessage (j : Json) : Option Message :=
  match j with
  | Json.obj fields =>
    match lookupField fields "source", lookupField fields "message",
          lookupField fields "timestamp" with
    | some (Json.str src), some (Json.str msg), some (Json.num ts) =>
      if knownSources.contains src then
        some { source := src
               timestamp := ts
               level := match lookupField fields "level" with
                        | some (Json.str l) => some l
                        | _ => none
               message := msg
               payload := fields }
      else none
    | _, _, _ => none
  | _ => none

/-- Modelled from the spec: decoding the elements of the JSON array of one
delivery (spec section 4.2): each element that fails to decode is recorded
as one decode failure and skipped; the sibling elements are kept in input
order.  Returns the decoded Batch and the per-element failure count. -/
def decodeBatch (xs : List Json) : List Message × Nat :=
  match xs with
  | [] => ([], 0)
  | j :: rest =>
    let r := decodeBatch rest
    match decodeMessage j with
    | some m => (m :: r.1, r.2)
    | none => (r.1, r.2 + 1)

/-- Modelled from the spec: the top level of `types::VercelPayload`
deserialization (spec section 4.2): the payload must be a JSON array,
otherwise the whole delivery is a top-level parse failure. -/
def payloadFromJson (j : Json) : Except String (List Message × Nat) :=
  match j with
  | Json.arr xs => Except.ok (decodeBatch xs)
  | _ => Except.error "payload is not a JSON array"

/-- `HeaderValue::to_str` of the `http` crate succeeds exactly when every
byte is visible ASCII (or tab), `main.rs` line 180. -/
def visibleAscii (bytes : List Nat) : Bool :=
  bytes.all (fun b => b == 9 || (32 ≤ b && b < 127))

/-- One UTF-8 continuation byte, `0x80..=0xBF`. -/
def utf8Cont (b : Nat) : Bool := 128 ≤ b && b ≤ 191

/-- The UTF-8 validity check of `String::from_utf8` (RFC 3629), used at
`main.rs` line 187. -/
def utf8Valid (bytes : List Nat) : Bool :=
  match bytes with
  | [] => true
  | b :: rest =>
    if b ≤ 127 then utf8Valid rest
    else if 194 ≤ b && b ≤ 223 then
      match rest with
      | c1 :: rest2 => utf8Cont c1 && utf8Valid rest2
      | _ => false
    else if b == 224 then
      match rest with
      | c1 :: c2 :: rest2 => (160 ≤ c1 && c1 ≤ 191) && utf8Cont c2 && utf8Valid rest2
      | _ => false
    else if (225 ≤ b && b ≤ 236) || b == 238 || b == 239 then
      match rest with
      | c1 :: c2 :: rest2 => utf8Cont c1 && utf8Cont c2 && utf8Valid rest2
      | _ => false
    else if b == 237 then
      match rest with
      | c1 :: c2 :: rest2 => (128 ≤ c1 && c1 ≤ 159) && utf8Cont c2 && utf8Valid rest2
      | _ => false
    else if b == 240 then
      match rest with
      | c1 :: c2 :: c3 :: rest2 =>
        (144 ≤ c1 && c1 ≤ 191) && utf8Cont c2 && utf8Cont c3 && utf8Valid rest2
      | _ => false
    else if 241 ≤ b && b ≤ 243 then
      match rest with
      | c1 :: c2 :: c3 :: rest2 =>
        utf8Cont c1 && utf8Cont c2 && utf8Cont c3 && utf8Valid rest2
      | _ => false
    else if b == 244 then
      match rest with
      | c1 :: c2 :: c3 :: rest2 =>
        (128 ≤ c1 && c1 ≤ 143) && utf8Cont c2 && utf8Cont c3 && utf8Valid rest2
      | _ => false
    else false

/-- Value of one ASCII hex digit byte, upper or lower case, as accepted
by the `hex` crate. -/
def hexDigit (b : Nat) : Option Nat :=
  if 48 ≤ b && b ≤ 57 then some (b - 48)
  else if 97 ≤ b && b ≤ 102 then some (b - 87)
  else if 65 ≤ b && b ≤ 70 then some (b - 55)
  else none

/-- Decode consecutive pairs of hex digit bytes into bytes. -/
def hexPairs (bytes : List Nat) : Option (List Nat) :=
  match bytes with
  | [] => some []
  | hi :: lo :: rest =>
    match hexDigit hi, hexDigit lo, hexPairs rest with
    | some h, some l, some bs => some ((16 * h + l) :: bs)
    | _, _, _ => none
  | _ :: [] => none

/-- `decode_to_slice` of the `hex` crate into a 20-byte buffer
(`main.rs` lines 195-196): succeeds exactly on 40 hex characters. -/
def hexDecode40 (bytes : List Nat) : Option (List Nat) :=
  if bytes.length = 40 then hexPairs bytes else none

/-- The response that the handler builds at `main.rs` lines 173-177. -/
structure Response where
  status : Nat
  headers : List (String × String)

/-- The externally visible effects of one `ingest` call: `counter!`
increments in call order, messages successfully passed to
`log_queue.send`, the number of failed sends that were error-logged, the
per-element decode failure count reported by the payload decoder, whether
the whole-payload parse failure was error-logged, and whether
`hmac::verify` was invoked. -/
structure Effects where
  counters : List String
  queued : List Message
  enqueueFailures : Nat
  elementDecodeFailures : Nat
  parseFailureLogged : Bool
  macComputed : Bool

/-- No effects yet. -/
def Effects.empty : Effects :=
  { counters := []
    queued := []
    enqueueFailures := 0
    elementDecodeFailures := 0
    parseFailureLogged := false
    macComputed := false }

/-- Outcome of one `ingest` call: either the handler returns a response,
or it panics (an `unwrap` of an `Err`), carrying the effects performed up
to that point. -/
inductive IngestOutcome where
  | panicked (eff : Effects) : IngestOutcome
  | returned (resp : Response) (eff : Effects) : IngestOutcome

/-- Effects performed by an `ingest` call, whether it returned or
panicked. -/
def IngestOutcome.effects (o : IngestOutcome) : Effects :=
  match o with
  | .panicked eff => eff
  | .returned _ eff => eff

/-- The enqueue loop at `main.rs` lines 208-215: each message is passed to
`log_queue.send`; a failed send is error-logged and the loop continues
with the next message.  `sendOk i` is the success of the send call with
index `i`.  Returns the successfully queued messages and the number of
failures logged. -/
def enqueueAll (sendOk : Nat → Bool) (i : Nat) (msgs : List Message) :
    List Message × Nat :=
  match msgs with
  | [] => ([], 0)
  | m :: rest =>
    let r := enqueueAll sendOk (i + 1) rest
    if sendOk i then (m :: r.1, r.2) else (r.1, r.2 + 1)

/-- The `ingest` handler, `main.rs` lines 167-222.

Parameters standing for external collaborators:
* `hmacVerify body sig` — outcome of the `hmac::verify` call on
  `state.vercel_secret` (line 197);
* `parseJson body` — the text-level JSON parse performed by
  `serde_json::from_str` (line 205), `none` when the body is not
  syntactically valid JSON; the decoding of the parsed value that belongs
  to the repository is `payloadFromJson`;
* `sendOk` — per-call outcome of `log_queue.send` (line 209);
* `vercelVerify` — `state.vercel_verify`;
* `sigHeader` — raw bytes of the `x-vercel-signature` header, `none`
  when absent (line 179);
* `body` — the raw request body bytes. -/
def ingest (hmacVerify : List Nat → List Nat → Bool)
    (parseJson : List Nat → Option Json) (sendOk : Nat → Bool)
    (vercelVerify : String) (sigHeader : Option (List Nat))
    (body : List Nat) : IngestOutcome :=
  let response : Response :=
    { status := 200, headers := [("x-vercel-verify", vercelVerify)] }
  match sigHeader with
  | none =>
    .returned response
      { Effects.empty with counters := ["drain_recv_invalid_signature"] }
  | some sigBytes =>
    if visibleAscii sigBytes then
      if utf8Valid body then
        match hexDecode40 sigBytes with
        | none => .panicked Effects.empty
        | some sig =>
          if hmacVerify body sig then
            match parseJson body with
            | some j =>
              match payloadFromJson j with
              | Except.ok decoded =>
                let sent := enqueueAll sendOk 0 decoded.1
                .returned response
                  { Effects.empty with
                    queued := sent.1
                    enqueueFailures := sent.2
                    elementDecodeFailures := decoded.2
                    macComputed := true }
              | Except.error _ =>
                .returned response
                  { Effects.empty with
                    parseFailureLogged := true
                    macComputed := true }
            | none =>
              .returned response
                { Effects.empty with
                  parseFailureLogged := true
                  macComputed := true }
          else
            .returned response
              { Effects.empty with
                counters := ["drain_failed_verify_signature"]
                macComputed := true }
      else
        .returned response
          { Effects.empty with counters := ["drain_recv_bad_utf8"] }
    else
      .panicked Effects.empty

/-- A delivery passes signature verification: the header is present and
readable, decodes as 40 hex characters, and the MAC matches. -/
def sigVerified (hmacVerify : List Nat → List Nat → Bool)
    (sigHeader : Option (List Nat)) (body : List Nat) : Prop :=
  ∃ sigBytes sig, sigHeader = some sigBytes ∧ visibleAscii sigBytes = true ∧
    hexDecode40 sigBytes = some sig ∧ hmacVerify body sig = true

/-- The two JSON array elements of the end-to-end scenario in spec
section 8, used as concrete witness input. -/
def specScenario : List Json :=
  [Json.obj [("source", Json.str "lambda"), ("message", Json.str "ok"),
             ("timestamp", Json.num 1)],
   Json.obj [("source", Json.str "unknown-kind"), ("x", Json.num 1)]]

/-- A syntactically valid 40-character hex signature (all zero bytes),
used as concrete witness input. -/
def zeroSig : List Nat := List.replicate 40 48

lemma decodeBatch_eq (xs : List Json) :
    decodeBatch xs =
      (xs.filterMap decodeMessage,
       (xs.filter (fun j => (decodeMessage j).isNone)).length) := by
  induction xs with
  | nil => rfl
  | cons j rest ih =>
    simp only [decodeBatch, ih, List.filterMap_cons, List.filter_cons]
    cases h : decodeMessage j <;> simp [h]

lemma length_filterMap_decodeMessage (xs : List Json) :
    (xs.filterMap decodeMessage).length =
      (xs.filter (fun j => (decodeMessage j).isSome)).length := by
  induction xs with
  | nil => rfl
  | cons j rest ih =>
    simp only [List.filterMap_cons, List.filter_cons]
    cases h : decodeMessage j <;> simp [h, ih]

lemma enqueueAll_all_ok (sendOk : Nat → Bool) (i : Nat) (msgs : List Message)
    (h : ∀ j, i ≤ j → sendOk j = true) :
    enqueueAll sendOk i msgs = (msgs, 0) := by
  induction msgs generalizing i with
  | nil => rfl
  | cons m rest ih =>
    have h1 : sendOk i = true := h i (Nat.le_refl i)
    have h2 := ih (i + 1) (fun j hj => h j (Nat.le_of_succ_le hj))
    simp [enqueueAll, h1, h2]

lemma enqueueAll_fail_at (sendOk : Nat → Bool) (k i : Nat) (msgs : List Message)
    (hfail : sendOk k = false) (hok : ∀ j, j ≠ k → sendOk j = true)
    (hik : i ≤ k) (hk : k - i < msgs.length) :
    enqueueAll sendOk i msgs = (msgs.eraseIdx (k - i), 1) := by
  induction msgs generalizing i with
  | nil => simp at hk
  | cons m rest ih =>
    by_cases hi : i = k
    · subst hi
      have h2 : enqueueAll sendOk (i + 1) rest = (rest, 0) :=
        enqueueAll_all_ok _ _ _ (fun j hj => hok j (by omega))
      simp [enqueueAll, h2, hfail, Nat.sub_self, List.eraseIdx]
    · have hik1 : i + 1 ≤ k := by omega
      have hk1 : k - (i + 1) < rest.length := by
        simp only [List.length_cons] at hk; omega
      have h1 : sendOk i = true := hok i hi
      have h2 := ih (i + 1) hik1 hk1
      have hsub : k - i = (k - (i + 1)) + 1 := by omega
      simp [enqueueAll, h1, h2, hsub, List.eraseIdx]

/-- A JSON array of two well-formed elements, used as concrete witness
input for the enqueue-failure claim. -/
def twoValid : List Json :=
  [Json.obj [("source", Json.str "lambda"), ("message", Json.str "a"),
             ("timestamp", Json.num 1)],
   Json.obj [("source", Json.str "lambda"), ("message", Json.str "b"),
             ("timestamp", Json.num 2)]]

/-- Claim C1 (code bug evidence): a delivery whose x-vercel-signature
header value is the two-character string "zz" — not valid 40-character
hex — makes the handler panic at the `unwrap` of `hex::decode_to_slice`
(`main.rs` line 196) instead of rejecting the delivery as a decode
error. -/
theorem c1_nonhex_signature_panics :
    ingest (fun _ _ => true) (fun _ => some (Json.arr [])) (fun _ => true)
      "token" (some [122, 122]) [] = IngestOutcome.panicked Effects.empty := rfl

/-- Claim C2: an authenticated delivery whose body parses as a JSON array
yields exactly the well-formed elements as Records, in their original
array order, and reports the number of malformed elements as per-element
decode failures; the count of yielded Records equals the count of
well-formed elements. -/
theorem c2_decode_failure_isolation
    (hmacVerify : List Nat → List Nat → Bool) (parseJson : List Nat → Option Json)
    (vercelVerify : String) (sigBytes sig body : List Nat) (xs : List Json)
    (hvis : visibleAscii sigBytes = true) (hutf : utf8Valid body = true)
    (hhex : hexDecode40 sigBytes = some sig) (hmac : hmacVerify body sig = true)
    (hparse : parseJson body = some (Json.arr xs)) :
    (xs.filterMap decodeMessage).length =
        (xs.filter (fun j => (decodeMessage j).isSome)).length ∧
    ingest hmacVerify parseJson (fun _ => true) vercelVerify (some sigBytes) body =
      IngestOutcome.returned
        { status := 200, headers := [("x-vercel-verify", vercelVerify)] }
        { Effects.empty with
          queued := xs.filterMap decodeMessage
          elementDecodeFailures :=
            (xs.filter (fun j => (decodeMessage j).isNone)).length
          macComputed := true } := by
  refine ⟨length_filterMap_decodeMessage xs, ?_⟩
  have hq := enqueueAll_all_ok (fun _ => true) 0 (xs.filterMap decodeMessage)
    (fun _ _ => rfl)
  simp [ingest, hvis, hutf, hhex, hmac, hparse, payloadFromJson, decodeBatch_eq,
    hq, Effects.empty]

/-- Concrete instantiation of claim C2 on the end-to-end scenario of spec
section 8: one valid and one malformed element. -/
theorem c2_decode_failure_isolation_witness :
    (specScenario.filterMap decodeMessage).length =
        (specScenario.filter (fun j => (decodeMessage j).isSome)).length ∧
    ingest (fun _ _ => true) (fun _ => some (Json.arr specScenario)) (fun _ => true)
      "token" (some zeroSig) [] =
      IngestOutcome.returned
        { status := 200, headers := [("x-vercel-verify", "token")] }
        { Effects.empty with
          queued := specScenario.filterMap decodeMessage
          elementDecodeFailures :=
            (specScenario.filter (fun j => (decodeMessage j).isNone)).length
          macComputed := true } :=
  c2_decode_failure_isolation _ _ _ _ _ _ _ rfl rfl rfl rfl rfl

/-- Claim C3: a delivery that fails signature verification — missing,
malformed or mismatched signature — never gets any Record enqueued. -/
theorem c3_failed_verification_queues_nothing
    (hmacVerify : List Nat → List Nat → Bool) (parseJson : List Nat → Option Json)
    (sendOk : Nat → Bool) (vercelVerify : String)
    (sigHeader : Option (List Nat)) (body : List Nat)
    (h : ¬ sigVerified hmacVerify sigHeader body) :
    (ingest hmacVerify parseJson sendOk vercelVerify sigHeader body).effects.queued
      = [] := by
  cases sigHeader with
  | none => rfl
  | some sigBytes =>
    by_cases hvis : visibleAscii sigBytes = true
    · by_cases hutf : utf8Valid body = true
      · cases hhex : hexDecode40 sigBytes with
        | none =>
          simp [ingest, hvis, hutf, hhex, IngestOutcome.effects, Effects.empty]
        | some sig =>
          by_cases hmac : hmacVerify body sig = true
          · exact absurd ⟨sigBytes, sig, rfl, hvis, hhex, hmac⟩ h
          · simp [ingest, hvis, hutf, hhex, hmac, IngestOutcome.effects,
              Effects.empty]
      · simp [ingest, hvis, hutf, IngestOutcome.effects, Effects.empty]
    · simp [ingest, hvis, IngestOutcome.effects, Effects.empty]

/-- Concrete instantiation of claim C3 on a delivery with no signature
header. -/
theorem c3_failed_verification_queues_nothing_witness :
    ¬ sigVerified (fun _ _ => true) none [] ∧
    (ingest (fun _ _ => true) (fun _ => none) (fun _ => true) "token" none
        []).effects.queued = [] :=
  ⟨by simp [sigVerified],
   c3_failed_verification_queues_nothing _ _ _ _ _ _ (by simp [sigVerified])⟩

/-- Claim C4 (code bug evidence): on a delivery whose signature header
value is the odd-length string "abc", the handler panics at the `unwrap`
of `hex::decode_to_slice` (`main.rs` line 196) and produces no HTTP
response at all, so the 200 acknowledgment is not returned on every
path. -/
theorem c4_panic_path_returns_no_response :
    ingest (fun _ _ => true) (fun _ => some (Json.arr [])) (fun _ => true)
      "token" (some [97, 98, 99]) [] = IngestOutcome.panicked Effects.empty := rfl

/-- Claim C5: a delivery without the x-vercel-signature header is rejected
immediately — the invalid-signature counter is bumped and the handler
returns with `macComputed` still false — for every verifier, parser and
queue state, so no MAC is ever computed over the body. -/
theorem c5_missing_signature_rejected_before_mac
    (hmacVerify : List Nat → List Nat → Bool) (parseJson : List Nat → Option Json)
    (sendOk : Nat → Bool) (vercelVerify : String) (body : List Nat) :
    ingest hmacVerify parseJson sendOk vercelVerify none body =
      IngestOutcome.returned
        { status := 200, headers := [("x-vercel-verify", vercelVerify)] }
        { Effects.empty with counters := ["drain_recv_invalid_signature"] } := rfl

/-- Claim C6: an authenticated delivery whose body is not a valid JSON
array (either not syntactically valid JSON, or valid JSON that is not an
array) enqueues zero Records, logs exactly one whole-payload parse
failure, and the handler still returns the 200 response, so future
deliveries keep being accepted. -/
theorem c6_invalid_json_body_zero_records
    (hmacVerify : List Nat → List Nat → Bool) (parseJson : List Nat → Option Json)
    (sendOk : Nat → Bool) (vercelVerify : String) (sigBytes sig body : List Nat)
    (hvis : visibleAscii sigBytes = true) (hutf : utf8Valid body = true)
    (hhex : hexDecode40 sigBytes = some sig) (hmac : hmacVerify body sig = true)
    (hparse : ∀ xs, parseJson body ≠ some (Json.arr xs)) :
    ingest hmacVerify parseJson sendOk vercelVerify (some sigBytes) body =
      IngestOutcome.returned
        { status := 200, headers := [("x-vercel-verify", vercelVerify)] }
        { Effects.empty with parseFailureLogged := true, macComputed := true } := by
  cases hp : parseJson body with
  | none => simp [ingest, hvis, hutf, hhex, hmac, hp]
  | some j =>
    cases j with
    | arr xs => exact absurd hp (hparse xs)
    | null => simp [ingest, hvis, hutf, hhex, hmac, hp, payloadFromJson]
    | bool b => simp [ingest, hvis, hutf, hhex, hmac, hp, payloadFromJson]
    | num n => simp [ingest, hvis, hutf, hhex, hmac, hp, payloadFromJson]
    | str s => simp [ingest, hvis, hutf, hhex, hmac, hp, payloadFromJson]
    | obj fields => simp [ingest, hvis, hutf, hhex, hmac, hp, payloadFromJson]

/-- Concrete instantiation of claim C6 on a body that is not
syntactically valid JSON. -/
theorem c6_invalid_json_body_zero_records_witness :
    ingest (fun _ _ => true) (fun _ => none) (fun _ => true) "token"
      (some zeroSig) [] =
      IngestOutcome.returned
        { status := 200, headers := [("x-vercel-verify", "token")] }
        { Effects.empty with parseFailureLogged := true, macComputed := true } :=
  c6_invalid_json_body_zero_records _ _ _ _ _ _ _ rfl rfl rfl rfl
    (fun _ h => Option.noConfusion h)

/-- Claim C7: when the send of exactly one Record of a batch fails, that
Record is dropped and the failure logged (one logged enqueue failure),
the remaining Records of the batch are still all enqueued in order, and
the prepared 200 response is returned unchanged. -/
theorem c7_enqueue_failure_isolated
    (hmacVerify : List Nat → List Nat → Bool) (parseJson : List Nat → Option Json)
    (sendOk : Nat → Bool) (vercelVerify : String) (sigBytes sig body : List Nat)
    (xs : List Json) (k : Nat)
    (hvis : visibleAscii sigBytes = true) (hutf : utf8Valid body = true)
    (hhex : hexDecode40 sigBytes = some sig) (hmac : hmacVerify body sig = true)
    (hparse : parseJson body = some (Json.arr xs))
    (hfail : sendOk k = false) (hok : ∀ j, j ≠ k → sendOk j = true)
    (hk : k < (xs.filterMap decodeMessage).length) :
    ingest hmacVerify parseJson sendOk vercelVerify (some sigBytes) body =
      IngestOutcome.returned
        { status := 200, headers := [("x-vercel-verify", vercelVerify)] }
        { Effects.empty with
          queued := (xs.filterMap decodeMessage).eraseIdx k
          enqueueFailures := 1
          elementDecodeFailures :=
            (xs.filter (fun j => (decodeMessage j).isNone)).length
          macComputed := true } := by
  have hq := enqueueAll_fail_at sendOk k 0 (xs.filterMap decodeMessage)
    hfail hok (Nat.zero_le k) (by simpa using hk)
  simp only [Nat.sub_zero] at hq
  simp [ingest, hvis, hutf, hhex, hmac, hparse, payloadFromJson, decodeBatch_eq,
    hq, Effects.empty]

/-- Concrete instantiation of claim C7: two valid Records, the first send
fails, the second Record is still queued and the 200 response kept. -/
theorem c7_enqueue_failure_isolated_witness :
    ingest (fun _ _ => true) (fun _ => some (Json.arr twoValid))
      (fun j => decide (j ≠ 0)) "token" (some zeroSig) [] =
      IngestOutcome.returned
        { status := 200, headers := [("x-vercel-verify", "token")] }
        { Effects.empty with
          queued := (twoValid.filterMap decodeMessage).eraseIdx 0
          enqueueFailures := 1
          elementDecodeFailures :=
            (twoValid.filter (fun j => (decodeMessage j).isNone)).length
          macComputed := true } :=
  c7_enqueue_failure_isolated _ _ _ _ _ _ _ _ 0 rfl rfl rfl rfl rfl
    (by decide) (fun _ hj => decide_eq_true hj) (by decide)

/-- Claim C8 (code bug evidence): on the bad-encoding rejection reason —
here an empty signature header value, which is not 40 hex characters —
the handler panics with no counter incremented at all, so the code has
no rejection counter for the bad-encoding reason. -/
theorem c8_bad_encoding_no_counter :
    ingest (fun _ _ => true) (fun _ => some (Json.arr [])) (fun _ => true)
      "token" (some []) [] = IngestOutcome.panicked Effects.empty := rfl

/-- Claim C9 counterexample: a delivery with no signature header and a
non-UTF-8 body is rejected for the missing signature; the bad-UTF-8
counter is not incremented, refuting the claim as stated for deliveries
lacking the signature header. -/
theorem c9_counterexample :
    utf8Valid [255] = false ∧
    (ingest (fun _ _ => true) (fun _ => none) (fun _ => true) "token" none
        [255]).effects.counters = ["drain_recv_invalid_signature"] ∧
    "drain_recv_bad_utf8" ∉
      (ingest (fun _ _ => true) (fun _ => none) (fun _ => true) "token" none
        [255]).effects.counters := by
  refine ⟨rfl, rfl, ?_⟩
  decide

/-- Claim C9 (amended): a delivery that carries a readable
x-vercel-signature header and whose body bytes are not valid UTF-8 is
rejected before signature verification (no MAC computed): the bad-UTF-8
counter is incremented, zero Records are enqueued, and the 200 response
is returned. -/
theorem c9_bad_utf8_rejected_before_mac
    (hmacVerify : List Nat → List Nat → Bool) (parseJson : List Nat → Option Json)
    (sendOk : Nat → Bool) (vercelVerify : String) (sigBytes body : List Nat)
    (hvis : visibleAscii sigBytes = true) (hutf : utf8Valid body = false) :
    ingest hmacVerify parseJson sendOk vercelVerify (some sigBytes) body =
      IngestOutcome.returned
        { status := 200, headers := [("x-vercel-verify", vercelVerify)] }
        { Effects.empty with counters := ["drain_recv_bad_utf8"] } := by
  simp [ingest, hvis, hutf]

/-- Concrete instantiation of amended claim C9 on a one-byte body that is
not valid UTF-8. -/
theorem c9_bad_utf8_rejected_before_mac_witness :
    ingest (fun _ _ => true) (fun _ => none) (fun _ => true) "token"
      (some [48]) [255] =
      IngestOutcome.returned
        { status := 200, headers := [("x-vercel-verify", "token")] }
        { Effects.empty with counters := ["drain_recv_bad_utf8"] } :=
  c9_bad_utf8_rejected_before_mac _ _ _ _ _ _ rfl rfl

/-- Claim C10: whenever the ingest handler returns a response — it does
not on the panic paths — that response has status 200 and carries the
x-vercel-verify header set to the configured verification token, on the
success path and on every rejection path alike. -/
theorem c10_response_carries_verify_header
    (hmacVerify : List Nat → List Nat → Bool) (parseJson : List Nat → Option Json)
    (sendOk : Nat → Bool) (vercelVerify : String) (sigHeader : Option (List Nat))
    (body : List Nat) (resp : Response) (eff : Effects)
    (h : ingest hmacVerify parseJson sendOk vercelVerify sigHeader body =
         IngestOutcome.returned resp eff) :
    resp.status = 200 ∧ resp.headers = [("x-vercel-verify", vercelVerify)] := by
  unfold ingest at h
  repeat' split at h
  all_goals cases h
  all_goals exact ⟨rfl, rfl⟩

/-- Concrete instantiation of claim C10 on a delivery with no signature
header. -/
theorem c10_response_carries_verify_header_witness :
    ({ status := 200, headers := [("x-vercel-verify", "token")] } : Response).status
        = 200 ∧
    ({ status := 200, headers := [("x-vercel-verify", "token")] } : Response).headers
        = [("x-vercel-verify", "token")] :=
  c10_response_carries_verify_header (fun _ _ => true) (fun _ => none)
    (fun _ => true) "token" none [] _ _ rfl
